import Mathlib

/-!
Verification of the snowops-operations-service vehicle-motion simulation and
live-telemetry subsystem.

The definitions below are a shallow embedding of the Go source:

* `SnowOps.Geo` — the pure geodesic helpers `GPSSimulator.distance` and
  `GPSSimulator.calculateHeading` (simulator file, lines 369-398), over ℝ
  (idealizing float64 arithmetic).
* `SnowOps.Sim` — the simulator tick `GPSSimulator.updatePosition` together
  with `selectRandomRoad` / `getCurrentSegment`, over ℚ coordinates, with the
  external collaborators (polygon store, camera store, the database) given as
  per-tick oracles.
* `SnowOps.Mon` — the read side: `GPSPointRepository.GetTrack`,
  `GPSPointRepository.GetLatestForVehicles`, `GPSPointRepository.DeleteOlderThan`,
  `MonitoringService.GetVehiclesLive`, `MonitoringService.DeleteOldGPSPoints`,
  and the handler's time-range defaulting; SQL `ORDER BY` is modelled by an
  insertion sort and wall-clock time by an integer parameter (seconds).
-/

namespace SnowOps

namespace Geo

/-- A latitude/longitude pair with real coordinates (simulator `LatLon`). -/
structure LatLonR where
  lat : ℝ
  lon : ℝ

/-- Go's `math.Atan2`, by the standard case analysis on the signs. -/
noncomputable def atan2 (y x : ℝ) : ℝ :=
  if 0 < x then Real.arctan (y / x)
  else if x < 0 ∧ 0 ≤ y then Real.arctan (y / x) + Real.pi
  else if x < 0 ∧ y < 0 then Real.arctan (y / x) - Real.pi
  else if x = 0 ∧ 0 < y then Real.pi / 2
  else if x = 0 ∧ y < 0 then -(Real.pi / 2)
  else 0

/-- Mean Earth radius in metres (`earthRadius` constant of the simulator). -/
def earthRadius : ℝ := 6371000

/-- `GPSSimulator.distance`: haversine great-circle distance in metres. -/
noncomputable def distance (p q : LatLonR) : ℝ :=
  let lat1 := p.lat * Real.pi / 180
  let lat2 := q.lat * Real.pi / 180
  let deltaLat := (q.lat - p.lat) * Real.pi / 180
  let deltaLon := (q.lon - p.lon) * Real.pi / 180
  let a := Real.sin (deltaLat / 2) * Real.sin (deltaLat / 2) +
    Real.cos lat1 * Real.cos lat2 *
      Real.sin (deltaLon / 2) * Real.sin (deltaLon / 2)
  let c := 2 * atan2 (Real.sqrt a) (Real.sqrt (1 - a))
  earthRadius * c

/-- `GPSSimulator.calculateHeading`: initial bearing in degrees, normalized
into [0, 360) by adding 360 and taking the floating-point modulus. -/
noncomputable def calculateHeading (p q : LatLonR) : ℝ :=
  let lat1 := p.lat * Real.pi / 180
  let lat2 := q.lat * Real.pi / 180
  let deltaLon := (q.lon - p.lon) * Real.pi / 180
  let y := Real.sin deltaLon * Real.cos lat2
  let x := Real.cos lat1 * Real.sin lat2 -
    Real.sin lat1 * Real.cos lat2 * Real.cos deltaLon
  let heading := atan2 y x * 180 / Real.pi
  (heading + 360) - 360 * ⌊(heading + 360) / 360⌋

end Geo

namespace Sim

/-- `LatLon` of the simulator, with rational coordinates (modelling float64). -/
structure LatLon where
  lat : ℚ
  lon : ℚ
deriving DecidableEq

/-- A `Road`: a named ordered list of waypoints. -/
structure Road where
  Name : String
  Nodes : List LatLon
deriving DecidableEq

/-- A `Segment` between two consecutive waypoints. -/
structure Segment where
  From : LatLon
  To : LatLon
deriving DecidableEq

/-- The fixed simulated speed `SpeedKmh = 20.0`. -/
def SpeedKmh : ℚ := 20

/-- `model.CameraType`. -/
inductive CameraType
  | lpr
  | volume
deriving DecidableEq

/-- The fields of `model.Camera` the simulator reads. -/
structure Camera where
  id : Nat
  type : CameraType
  isActive : Bool
deriving DecidableEq

/-- The fields of `model.Polygon` the simulator reads. -/
structure Polygon where
  id : Nat
  name : String
deriving DecidableEq

/-- The mutable cursor state of `GPSSimulator`: the loaded roads, the current
road/segment-index/progress cursor, and the geofence-membership flags. -/
structure SimState where
  roads : List Road
  currentRoad : Option Road
  currentIndex : Nat
  currentPos : ℚ
  wasInPolygon : Bool
  currentPolygonID : Option Nat
deriving DecidableEq

/-- The external collaborators of one tick, as oracles: the active-polygon
listing, point-in-polygon tests and camera listing (`none` = the call errors),
whether the database insert succeeds, and the wall-clock instant. -/
structure TickEnv where
  listActivePolygons : Option (List Polygon)
  containsPoint : Nat → ℚ → ℚ → Option Bool
  listCamerasByPolygon : Nat → Option (List Camera)
  createOk : Bool
  now : ℤ

/-- The geofence-entry event the simulator embeds in the sample payload. -/
structure LprEvent where
  polygonId : Nat
  polygonName : String
  eventType : String
  timestamp : ℤ
  cameraId : Option Nat
deriving DecidableEq

/-- The provenance payload marshalled onto every simulated sample. -/
structure SimPayload where
  simulated : Bool
  source : String
  lprEvent : Option LprEvent
deriving DecidableEq

/-- The `model.GPSPoint` the simulator persists (payload kept structured). -/
structure SimPoint where
  vehicleId : Nat
  capturedAt : ℤ
  lat : ℚ
  lon : ℚ
  speedKmh : ℚ
  headingDeg : ℚ
  payload : SimPayload
deriving DecidableEq

/-- `GPSSimulator.selectRandomRoad`: picks the first road (if any) and resets
the cursor to `(index = 0, progress = 0.0)`. -/
def selectRandomRoad (s : SimState) : SimState :=
  match s.roads with
  | [] => s
  | r :: _ => { s with currentRoad := some r, currentIndex := 0, currentPos := 0 }

/-- Length of the current road's node list (0 when no road is selected). -/
def roadNodesLen (s : SimState) : Nat :=
  match s.currentRoad with
  | none => 0
  | some r => r.Nodes.length

/-- `GPSSimulator.getCurrentSegment`: the segment at the cursor index, or
`none` when the index has run off the end (`index ≥ len(nodes) - 1`). -/
def getCurrentSegment (s : SimState) : Option Segment :=
  match s.currentRoad with
  | none => none
  | some r =>
    if h : r.Nodes.length - 1 ≤ s.currentIndex then none
    else some ⟨r.Nodes.get ⟨s.currentIndex, by omega⟩,
      r.Nodes.get ⟨s.currentIndex + 1, by omega⟩⟩

/-- The shared advance step of `updatePosition`: after `currentIndex++`, either
reselect the road (end of path) or keep it, then re-resolve the segment. -/
def advanceResolve (s : SimState) : SimState × Option Segment :=
  if roadNodesLen s - 1 ≤ s.currentIndex then
    let s2 := selectRandomRoad s
    (s2, getCurrentSegment s2)
  else (s, getCurrentSegment s)

/-- The polygon loop of `updatePosition` (lines 270-313): test each active
polygon in order against the `ContainsPoint` collaborator, short-circuiting
on the first whose check succeeds with `true`; a failing check (`none`) is
skipped. -/
def findFirstContaining (contains : Nat → ℚ → ℚ → Option Bool) (lat lon : ℚ) :
    List Polygon → Option Polygon
  | [] => none
  | p :: rest =>
    match contains p.id lat lon with
    | some true => some p
    | _ => findFirstContaining contains lat lon rest

/-- The camera loop on entry: the first active LPR camera, if any. -/
def firstActiveLprCamera : List Camera → Option Nat
  | [] => none
  | c :: rest =>
    if c.isActive && c.type == CameraType.lpr then some c.id
    else firstActiveLprCamera rest

/-- The geofence block of `updatePosition` (lines 264-318): list the active
polygons (a failing listing yields no match), find the first containing one,
and on a false-to-true membership transition build the ENTRY event, with the
first active LPR camera of the polygon when the camera listing succeeds.
Returns (inPolygon, currentPolygonID, lprEvent). -/
def evalGeofence (listActive : Option (List Polygon))
    (contains : Nat → ℚ → ℚ → Option Bool)
    (listCameras : Nat → Option (List Camera)) (now : ℤ)
    (wasInPolygon : Bool) (lat lon : ℚ) :
    Bool × Option Nat × Option LprEvent :=
  match listActive with
  | none => (false, none, none)
  | some polygons =>
    match findFirstContaining contains lat lon polygons with
    | none => (false, none, none)
    | some polygon =>
      if wasInPolygon then (true, some polygon.id, none)
      else
        let cameraId :=
          match listCameras polygon.id with
          | none => none
          | some cameras => firstActiveLprCamera cameras
        (true, some polygon.id,
          some ⟨polygon.id, polygon.name, "ENTRY", now, cameraId⟩)

/-- `GPSSimulator.updatePosition` up to (but not including) the database
insert: returns the mutated state and the built GPS point, or `none` for the
early `invalid road` / `no valid segment` error returns. The geodesic distance
and bearing are passed as function parameters (the Go code calls the methods
`s.distance` / `s.calculateHeading`); `d` is the global `DistancePerTick`. -/
def updatePositionCore (dist bearing : LatLon → LatLon → ℚ) (d : ℚ)
    (vehicleId : Nat) (env : TickEnv) (s : SimState) :
    SimState × Option SimPoint :=
  match s.currentRoad with
  | none => (s, none)
  | some road0 =>
    if road0.Nodes.length < 2 then (s, none)
    else
      -- resolve the current segment; on nil, advance and re-resolve
      let step1 : SimState × Option Segment :=
        match getCurrentSegment s with
        | some seg => (s, some seg)
        | none => advanceResolve { s with currentIndex := s.currentIndex + 1 }
      match step1 with
      | (s1, none) => (s1, none)
      | (s1, some segment) =>
        -- distance bookkeeping; note segmentLength is NOT recomputed below
        let segmentLength := dist segment.From segment.To
        let distanceToMove := d
        let step2 : SimState × Option Segment :=
          if (1 - s1.currentPos) * segmentLength < distanceToMove then
            advanceResolve
              { s1 with currentIndex := s1.currentIndex + 1, currentPos := 0 }
          else (s1, some segment)
        match step2 with
        | (_, none) => (step2.1, none)
        | (s2, some segment2) =>
          let progress0 := distanceToMove / segmentLength
          let progress := if 1 < progress0 then 1 else progress0
          let newPos := s2.currentPos + progress
          let lat := segment2.From.lat + (segment2.To.lat - segment2.From.lat) * newPos
          let lon := segment2.From.lon + (segment2.To.lon - segment2.From.lon) * newPos
          let heading := bearing segment2.From segment2.To
          -- geofence evaluation on the new position
          let geo := evalGeofence env.listActivePolygons env.containsPoint
            env.listCamerasByPolygon env.now s2.wasInPolygon lat lon
          let s3 := { s2 with
            currentPos := newPos,
            wasInPolygon := geo.1,
            currentPolygonID := geo.2.1 }
          let point : SimPoint :=
            ⟨vehicleId, env.now, lat, lon, SpeedKmh, heading,
              ⟨true, "osm-simulator", geo.2.2⟩⟩
          (s3, some point)

/-- The result of one tick: the state after it, the persisted sample (if the
insert happened and succeeded), and whether `updatePosition` returned nil. -/
structure TickResult where
  state : SimState
  persisted : Option SimPoint
  ok : Bool
deriving DecidableEq

/-- `GPSSimulator.updatePosition`, one full tick including the `db.Create`
call: a failing insert returns an error, but the receiver's cursor state has
already been mutated by then. -/
def updatePosition (dist bearing : LatLon → LatLon → ℚ) (d : ℚ)
    (vehicleId : Nat) (env : TickEnv) (s : SimState) : TickResult :=
  match updatePositionCore dist bearing d vehicleId env s with
  | (s1, none) => ⟨s1, none, false⟩
  | (s1, some point) =>
    if env.createOk then ⟨s1, some point, true⟩ else ⟨s1, none, false⟩

/-- Run the tick loop over a list of per-tick environments, collecting each
tick's persisted sample. -/
def simTicks (dist bearing : LatLon → LatLon → ℚ) (d : ℚ) (vehicleId : Nat)
    (s : SimState) : List TickEnv → SimState × List (Option SimPoint)
  | [] => (s, [])
  | env :: rest =>
    let r := updatePosition dist bearing d vehicleId env s
    let tail := simTicks dist bearing d vehicleId r.state rest
    (tail.1, r.persisted :: tail.2)

/-- Iterate the tick loop `n` times with a per-tick environment sequence. -/
def simRun (dist bearing : LatLon → LatLon → ℚ) (d : ℚ) (vehicleId : Nat)
    (envs : Nat → TickEnv) (s : SimState) : Nat → SimState
  | 0 => s
  | n + 1 =>
    (updatePosition dist bearing d vehicleId (envs n)
      (simRun dist bearing d vehicleId envs s n)).state

end Sim

namespace Mon

/-- `model.UserRole`. -/
inductive UserRole
  | akimatAdmin
  | kguZkhAdmin
  | tooAdmin
  | landfillAdmin
  | landfillUser
  | contractorAdmin
  | driver
deriving DecidableEq

/-- The fields of `model.Principal` the monitoring paths read. -/
structure Principal where
  userId : Nat
  organizationId : Nat
  role : UserRole
deriving DecidableEq

/-- `Principal.IsAkimat`. -/
def Principal.isAkimat (p : Principal) : Bool :=
  p.role == UserRole.akimatAdmin

/-- `Principal.IsKgu`. -/
def Principal.isKgu (p : Principal) : Bool :=
  p.role == UserRole.kguZkhAdmin

/-- `Principal.IsTechnicalOperator`. -/
def Principal.isTechnicalOperator (p : Principal) : Bool :=
  p.role == UserRole.tooAdmin || p.role == UserRole.landfillAdmin ||
    p.role == UserRole.landfillUser

/-- `Principal.IsContractor`. -/
def Principal.isContractor (p : Principal) : Bool :=
  p.role == UserRole.contractorAdmin

/-- `Principal.IsDriver`. -/
def Principal.isDriver (p : Principal) : Bool :=
  p.role == UserRole.driver

/-- `model.VehicleStatus`. -/
inductive VehicleStatus
  | inTrip
  | idle
  | offline
deriving DecidableEq

/-- The fields of `model.Vehicle` the monitoring paths read. -/
structure Vehicle where
  id : Nat
  plateNumber : String
  contractorId : Option Nat
  isActive : Bool
deriving DecidableEq

/-- A persisted `model.GPSPoint` row; `capturedAt` is seconds on an integer
timeline, `rawPayload` the JSON provenance text. -/
structure GPSPoint where
  id : Nat
  vehicleId : Nat
  capturedAt : ℤ
  lat : ℚ
  lon : ℚ
  speedKmh : ℚ
  headingDeg : ℚ
  rawPayload : Option String
deriving DecidableEq

/-- The service error values of `internal/service/errors.go` used here. -/
inductive ServiceError
  | permissionDenied
  | invalidInput
  | notFound
deriving DecidableEq

/-- `VehicleRepository.List`: filter by contractor (when given) and by the
active flag (when requested). The `vehicles` table is a row list. -/
def vehicleList (table : List Vehicle) (contractorId : Option Nat)
    (onlyActive : Bool) : List Vehicle :=
  table.filter fun v =>
    (match contractorId with
     | none => true
     | some cid => v.contractorId == some cid) &&
    (!onlyActive || v.isActive)

/-- The `ORDER BY vehicle_id, captured_at DESC` ordering relation of
`GetLatestForVehicles` (vehicle id ascending, capture time descending). -/
def latestOrder (p q : GPSPoint) : Prop :=
  p.vehicleId < q.vehicleId ∨ (p.vehicleId = q.vehicleId ∧ q.capturedAt ≤ p.capturedAt)

instance : DecidableRel latestOrder := by
  intro p q
  unfold latestOrder
  infer_instance

/-- Insert one row into a list sorted by `latestOrder`. -/
def insertLatest (p : GPSPoint) : List GPSPoint → List GPSPoint
  | [] => [p]
  | q :: rest =>
    if latestOrder p q then p :: q :: rest else q :: insertLatest p rest

/-- Sort rows by `latestOrder` (models the SQL `ORDER BY` of
`GetLatestForVehicles`). -/
def sortLatest : List GPSPoint → List GPSPoint
  | [] => []
  | p :: rest => insertLatest p (sortLatest rest)

/-- `GPSPointRepository.GetLatestForVehicles` read for one vehicle id: filter
rows to the requested vehicles not older than `now - maxAge`, order by
`(vehicle_id, captured_at DESC)`, and keep the first row seen per vehicle
(the Go loop's `seen` map keeps the first row in iteration order, i.e. the
first match in the sorted list). -/
def getLatestForVehicles (table : List GPSPoint) (ids : List Nat)
    (now maxAge : ℤ) (vid : Nat) : Option GPSPoint :=
  let cutoff := now - maxAge
  let rows := sortLatest (table.filter fun p =>
    ids.contains p.vehicleId && decide (cutoff ≤ p.capturedAt))
  rows.find? fun p => p.vehicleId == vid

/-- A minimal JSON value, enough for `payload["simulated"].(bool)`. -/
inductive JsonValue
  | bool (b : Bool)
  | str (s : String)
  | num (n : ℚ)
  | null
deriving DecidableEq

/-- A parsed JSON object: the key/value map `json.Unmarshal` produces. -/
abbrev JsonObject := List (String × JsonValue)

/-- The `is_simulated` derivation of `GetVehiclesLive` (lines 152-161): the
payload must be present, non-empty, parse as JSON (`parse` is the
`json.Unmarshal` collaborator), and carry a boolean field `simulated` that is
`true`; anything else yields `false`. -/
def isSimulatedFlag (parse : String → Option JsonObject)
    (raw : Option String) : Bool :=
  match raw with
  | none => false
  | some text =>
    if text = "" then false
    else
      match parse text with
      | none => false
      | some payload =>
        match payload.lookup "simulated" with
        | some (JsonValue.bool true) => true
        | _ => false

/-- The per-vehicle last-position block of the live response. -/
structure GPSPointData where
  lat : ℚ
  lon : ℚ
  capturedAt : ℤ
  speedKmh : ℚ
  headingDeg : ℚ
  isSimulated : Bool
deriving DecidableEq

/-- One entry of the live-vehicles response. -/
structure VehicleLiveData where
  vehicleId : Nat
  plateNumber : String
  contractorId : Option Nat
  lastGPS : Option GPSPointData
  status : VehicleStatus
deriving DecidableEq

/-- The role dispatch of `GetVehiclesLive` (lines 78-105): which vehicles the
principal sees, or a permission error. -/
def visibleVehicles (principal : Principal) (vehiclesTable : List Vehicle) :
    Except ServiceError (List Vehicle) :=
  if principal.isAkimat || principal.isKgu then
    Except.ok (vehicleList vehiclesTable none false)
  else if principal.isTechnicalOperator then
    Except.ok (vehicleList vehiclesTable none false)
  else if principal.isContractor then
    Except.ok (vehicleList vehiclesTable (some principal.organizationId) false)
  else if principal.isDriver then
    Except.ok []
  else
    Except.error ServiceError.permissionDenied

/-- The status classification of `GetVehiclesLive` (lines 132-142) for a
vehicle with a fetched sample of age `now - capturedAt`. -/
def classifyAge (age : ℤ) : VehicleStatus :=
  if age < 2 * 60 then VehicleStatus.inTrip
  else if age < 5 * 60 then VehicleStatus.idle
  else VehicleStatus.offline

/-- `MonitoringService.GetVehiclesLive`: resolve visibility, fetch each
visible vehicle's freshest sample within the 5-minute window, classify its
age, and shape the response (the `input` bounding-box/contractor filters are
unused by the Go body). -/
def getVehiclesLive (parse : String → Option JsonObject)
    (vehiclesTable : List Vehicle) (gpsTable : List GPSPoint) (now : ℤ)
    (principal : Principal) :
    Except ServiceError (List VehicleLiveData) :=
  match visibleVehicles principal vehiclesTable with
  | Except.error e => Except.error e
  | Except.ok vehicles =>
    let vehicleIDs := vehicles.map (·.id)
    if vehicleIDs.length = 0 then Except.ok []
    else
      let maxAge : ℤ := 5 * 60
      Except.ok (vehicles.map fun v =>
        match getLatestForVehicles gpsTable vehicleIDs now maxAge v.id with
        | none =>
          ⟨v.id, v.plateNumber, v.contractorId, none, VehicleStatus.offline⟩
        | some p =>
          ⟨v.id, v.plateNumber, v.contractorId,
            some ⟨p.lat, p.lon, p.capturedAt, p.speedKmh, p.headingDeg,
              isSimulatedFlag parse p.rawPayload⟩,
            classifyAge (now - p.capturedAt)⟩)

/-- Insert one row into a list sorted by ascending `captured_at`. -/
def insertAsc (p : GPSPoint) : List GPSPoint → List GPSPoint
  | [] => [p]
  | q :: rest =>
    if p.capturedAt ≤ q.capturedAt then p :: q :: rest else q :: insertAsc p rest

/-- Sort rows by ascending `captured_at` (models the SQL `ORDER BY
captured_at ASC` of `GetTrack`). -/
def sortAsc : List GPSPoint → List GPSPoint
  | [] => []
  | p :: rest => insertAsc p (sortAsc rest)

/-- `GPSPointRepository.GetTrack`: the vehicle's rows with
`from ≤ captured_at ≤ to` (both bounds inclusive), ascending. -/
def getTrack (table : List GPSPoint) (vid : Nat) (tFrom tTo : ℤ) :
    List GPSPoint :=
  sortAsc (table.filter fun p =>
    p.vehicleId == vid && decide (tFrom ≤ p.capturedAt) &&
      decide (p.capturedAt ≤ tTo))

/-- The handler's time-range defaulting in `vehicleTrack` (lines 1158-1178):
absent query parameters default to the last hour through now. -/
def trackRange (fromQ toQ : Option ℤ) (now : ℤ) : ℤ × ℤ :=
  (fromQ.getD (now - 3600), toQ.getD now)

/-- `GPSPointRepository.DeleteOlderThan` on a row list: deletes rows with
`captured_at < cutoff` (strict) and reports the affected-row count. -/
def deleteOlderThan (table : List GPSPoint) (cutoff : ℤ) :
    List GPSPoint × Nat :=
  ((table.filter fun p => !decide (p.capturedAt < cutoff)),
    (table.filter fun p => decide (p.capturedAt < cutoff)).length)

/-- `MonitoringService.DeleteOldGPSPoints`: only KGU/Akimat may delete, a
future cutoff is rejected as invalid input before the repository is called,
otherwise rows strictly older than the cutoff are deleted. Returns the table
after the call and the outcome. -/
def deleteOldGPSPoints (principal : Principal) (now olderThan : ℤ)
    (table : List GPSPoint) : List GPSPoint × Except ServiceError Nat :=
  if !principal.isKgu && !principal.isAkimat then
    (table, Except.error ServiceError.permissionDenied)
  else if now < olderThan then
    (table, Except.error ServiceError.invalidInput)
  else
    let r := deleteOlderThan table olderThan
    (r.1, Except.ok r.2)

/-- The "most recent sample within the freshness window" property: `p` is a
stored sample of vehicle `vid`, not older than 5 minutes, and no fresh sample
of that vehicle is newer. -/
def LatestFetchSpec (gpsTable : List GPSPoint) (now : ℤ) (vid : Nat)
    (p : GPSPoint) : Prop :=
  p ∈ gpsTable ∧ p.vehicleId = vid ∧ now - 5 * 60 ≤ p.capturedAt ∧
    ∀ q ∈ gpsTable, q.vehicleId = vid → now - 5 * 60 ≤ q.capturedAt →
      q.capturedAt ≤ p.capturedAt

/-- The per-vehicle contract of the live resolver: the response carries an
entry for the vehicle; when no sample within the 5-minute window exists the
entry is OFFLINE with no position block (and conversely, staleness of every
stored sample forces the empty fetch); when the freshest windowed sample is
fetched, the status follows the 2-minute/5-minute age thresholds. -/
def LiveEntrySpec (gpsTable : List GPSPoint) (ids : List Nat) (now : ℤ)
    (v : Vehicle) (out : List VehicleLiveData) : Prop :=
  ∃ e, e ∈ out ∧ e.vehicleId = v.id ∧
    (getLatestForVehicles gpsTable ids now (5 * 60) v.id = none →
      e.status = VehicleStatus.offline ∧ e.lastGPS = none ∧
      ∀ q ∈ gpsTable, q.vehicleId = v.id → q.capturedAt < now - 5 * 60) ∧
    ((∀ q ∈ gpsTable, q.vehicleId = v.id → q.capturedAt < now - 5 * 60) →
      getLatestForVehicles gpsTable ids now (5 * 60) v.id = none) ∧
    ∀ p, getLatestForVehicles gpsTable ids now (5 * 60) v.id = some p →
      LatestFetchSpec gpsTable now v.id p ∧ e.lastGPS.isSome = true ∧
      (now - p.capturedAt < 2 * 60 → e.status = VehicleStatus.inTrip) ∧
      (2 * 60 ≤ now - p.capturedAt → now - p.capturedAt < 5 * 60 →
        e.status = VehicleStatus.idle) ∧
      (5 * 60 ≤ now - p.capturedAt → e.status = VehicleStatus.offline)

/-- A parse oracle that always fails (payloads are irrelevant to fixtures). -/
def noParse : String → Option JsonObject := fun _ => none

/-- A KGU_ZKH_ADMIN principal fixture. -/
def kguPrincipal : Principal := ⟨1, 1, UserRole.kguZkhAdmin⟩

/-- A single-vehicle fixture. -/
def fixtureVehicle : Vehicle := ⟨1, "KZ-001", none, true⟩

/-- A GPS row of the fixture vehicle captured at `t`. -/
def fixturePointAt (t : ℤ) : GPSPoint := ⟨0, 1, t, 0, 0, 0, 0, none⟩

/-- The statuses the live query reports at wall-clock 1000 for the fixture
vehicle whose only sample was captured at `sampleAt`. -/
def liveStatusesAt (sampleAt : ℤ) : Option (List VehicleStatus) :=
  (getVehiclesLive noParse [fixtureVehicle] [fixturePointAt sampleAt] 1000
    kguPrincipal).toOption.map (fun l => l.map (fun e => e.status))

/-- GPS rows aged 1, 6, 8 and 10 days (86400 s each) at wall-clock 0. -/
def fixtureAgedDays : List GPSPoint :=
  [fixturePointAt (-86400), fixturePointAt (-518400),
    fixturePointAt (-691200), fixturePointAt (-864000)]

end Mon

namespace Sim

/-- Fixture waypoints of a three-node road. -/
def nodeA : LatLon := ⟨0, 0⟩

/-- Second fixture waypoint. -/
def nodeB : LatLon := ⟨1, 0⟩

/-- Third fixture waypoint. -/
def nodeC : LatLon := ⟨2, 0⟩

/-- A three-node fixture road (two segments). -/
def road3 : Road := ⟨"fixture-road", [nodeA, nodeB, nodeC]⟩

/-- A distance oracle giving the first fixture segment length 10 and the
second length 100. -/
def stepDist : LatLon → LatLon → ℚ := fun p _ => if p.lat = 0 then 10 else 100

/-- A constant distance oracle (segments much longer than one tick). -/
def constDist : LatLon → LatLon → ℚ := fun _ _ => 1000

/-- A constant bearing oracle. -/
def zeroBearing : LatLon → LatLon → ℚ := fun _ _ => 0

/-- A tick environment with one active polygon whose containment test
constantly answers `b`, an empty camera list, and a working database. -/
def insideEnv (b : Bool) : TickEnv :=
  ⟨some [⟨1, "P"⟩], fun _ _ _ => some b, fun _ => some [], true, 0⟩

/-- A tick environment whose active-polygon listing fails. -/
def polyFailEnv : TickEnv :=
  ⟨none, fun _ _ _ => some false, fun _ => some [], true, 0⟩

/-- The cursor at the start of the fixture road. -/
def simState0 : SimState := ⟨[road3], some road3, 0, 0, false, none⟩

/-- The cursor halfway through the first fixture segment. -/
def simStateHalf : SimState := ⟨[road3], some road3, 0, 1 / 2, false, none⟩

/-- The per-tick geofence-event flags of a run (false for dropped ticks). -/
def tickEventFlags (r : SimState × List (Option SimPoint)) : List Bool :=
  r.2.map fun o =>
    match o with
    | none => false
    | some pt => pt.payload.lprEvent.isSome

/-- Containment sequence outside, outside, inside, inside, outside, inside. -/
def sixTickEnvs : List TickEnv :=
  [insideEnv false, insideEnv false, insideEnv true, insideEnv true,
    insideEnv false, insideEnv true]

end Sim

end SnowOps

namespace SnowOps

namespace Geo

theorem atan2_zero_one : atan2 0 1 = 0 := by
  simp [atan2]

theorem distance_self (p : LatLonR) : distance p p = 0 := by
  simp [distance, atan2_zero_one]

theorem distance_comm (p q : LatLonR) : distance p q = distance q p := by
  unfold distance
  dsimp only
  have h1 : (p.lat - q.lat) * Real.pi / 180 / 2 =
      -((q.lat - p.lat) * Real.pi / 180 / 2) := by ring
  have h2 : (p.lon - q.lon) * Real.pi / 180 / 2 =
      -((q.lon - p.lon) * Real.pi / 180 / 2) := by ring
  rw [h1, h2, Real.sin_neg, Real.sin_neg]
  ring_nf

end Geo

/-- C9: for all waypoints a and b, the great-circle distance function of the
simulator satisfies `distance a a = 0` and `distance a b = distance b a`. -/
theorem C9_distance_refl_and_comm (a b : Geo.LatLonR) :
    Geo.distance a a = 0 ∧ Geo.distance a b = Geo.distance b a :=
  ⟨Geo.distance_self a, Geo.distance_comm a b⟩

end SnowOps

namespace SnowOps

namespace Mon

theorem insertAsc_perm (p : GPSPoint) (l : List GPSPoint) :
    (insertAsc p l).Perm (p :: l) := by
  induction l with
  | nil => exact List.Perm.refl _
  | cons q rest ih =>
    unfold insertAsc
    by_cases h : p.capturedAt ≤ q.capturedAt
    · simp [h]
    · simp only [h, if_false]
      exact (ih.cons q).trans (List.Perm.swap p q rest)

theorem sortAsc_perm (l : List GPSPoint) : (sortAsc l).Perm l := by
  induction l with
  | nil => exact List.Perm.refl _
  | cons p rest ih =>
    exact (insertAsc_perm p (sortAsc rest)).trans (ih.cons p)

theorem insertAsc_pairwise (p : GPSPoint) (l : List GPSPoint)
    (h : List.Pairwise (fun a b : GPSPoint => a.capturedAt ≤ b.capturedAt) l) :
    List.Pairwise (fun a b : GPSPoint => a.capturedAt ≤ b.capturedAt)
      (insertAsc p l) := by
  induction l with
  | nil => simp [insertAsc]
  | cons q rest ih =>
    rw [List.pairwise_cons] at h
    unfold insertAsc
    by_cases hpq : p.capturedAt ≤ q.capturedAt
    · simp only [hpq, if_true]
      refine List.Pairwise.cons ?_ (List.Pairwise.cons h.1 h.2)
      intro x hx
      rcases List.mem_cons.mp hx with hEq | hx
      · rw [hEq]; exact hpq
      · exact le_trans hpq (h.1 x hx)
    · simp only [hpq, if_false]
      refine List.Pairwise.cons ?_ (ih h.2)
      intro x hx
      rcases List.mem_cons.mp ((insertAsc_perm p rest).mem_iff.mp hx) with hEq | hx2
      · rw [hEq]; omega
      · exact h.1 x hx2

theorem sortAsc_pairwise (l : List GPSPoint) :
    List.Pairwise (fun a b : GPSPoint => a.capturedAt ≤ b.capturedAt)
      (sortAsc l) := by
  induction l with
  | nil => simp [sortAsc]
  | cons p rest ih => exact insertAsc_pairwise p (sortAsc rest) ih

theorem getTrack_count (table : List GPSPoint) (vid : Nat) (tFrom tTo : ℤ)
    (p : GPSPoint) :
    (getTrack table vid tFrom tTo).count p =
      if p.vehicleId = vid ∧ tFrom ≤ p.capturedAt ∧ p.capturedAt ≤ tTo then
        table.count p
      else 0 := by
  have hperm := sortAsc_perm (table.filter fun q =>
    q.vehicleId == vid && decide (tFrom ≤ q.capturedAt) &&
      decide (q.capturedAt ≤ tTo))
  rw [getTrack, hperm.count_eq p]
  by_cases h : p.vehicleId = vid ∧ tFrom ≤ p.capturedAt ∧ p.capturedAt ≤ tTo
  · rw [if_pos h]
    exact List.count_filter (by simp [h.1, h.2.1, h.2.2])
  · rw [if_neg h]
    rw [List.count_eq_zero]
    intro hmem
    have := List.of_mem_filter hmem
    simp only [Bool.and_eq_true, beq_iff_eq, decide_eq_true_eq] at this
    exact h ⟨this.1.1, this.1.2, this.2⟩

/-- C7: the track query returns exactly the vehicle's persisted samples with
`capturedAt` in the inclusive range `[from, to]` (counted with multiplicity),
in ascending `capturedAt` order regardless of insertion order; an empty range
yields the empty list; absent bounds default to the last hour through now. -/
theorem C7_track_query (table : List GPSPoint) (vid : Nat)
    (tFrom tTo now : ℤ) :
    (∀ p : GPSPoint, (getTrack table vid tFrom tTo).count p =
      if p.vehicleId = vid ∧ tFrom ≤ p.capturedAt ∧ p.capturedAt ≤ tTo then
        table.count p
      else 0)
    ∧ List.Pairwise (fun a b : GPSPoint => a.capturedAt ≤ b.capturedAt)
        (getTrack table vid tFrom tTo)
    ∧ ((∀ p ∈ table,
          ¬(p.vehicleId = vid ∧ tFrom ≤ p.capturedAt ∧ p.capturedAt ≤ tTo)) →
        getTrack table vid tFrom tTo = [])
    ∧ trackRange none none now = (now - 3600, now) := by
  refine ⟨getTrack_count table vid tFrom tTo, sortAsc_pairwise _, ?_, rfl⟩
  intro hnone
  have : (table.filter fun q =>
      q.vehicleId == vid && decide (tFrom ≤ q.capturedAt) &&
        decide (q.capturedAt ≤ tTo)) = [] := by
    rw [List.filter_eq_nil_iff]
    intro p hp
    have := hnone p hp
    simp only [Bool.and_eq_true, beq_iff_eq, decide_eq_true_eq]
    tauto
  rw [getTrack, this]
  rfl

/-- Witness for C7 at a concrete out-of-order fixture. -/
theorem C7_track_query_witness :
    (getTrack [fixturePointAt 5, fixturePointAt 1, fixturePointAt 3] 1 0
      10).count (fixturePointAt 3) =
      if (fixturePointAt 3).vehicleId = 1 ∧ (0 : ℤ) ≤ (fixturePointAt 3).capturedAt ∧
          (fixturePointAt 3).capturedAt ≤ 10 then
        ([fixturePointAt 5, fixturePointAt 1, fixturePointAt 3].count
          (fixturePointAt 3))
      else 0 :=
  (C7_track_query [fixturePointAt 5, fixturePointAt 1, fixturePointAt 3] 1 0
    10 0).1 (fixturePointAt 3)

end Mon

end SnowOps

namespace SnowOps

namespace Mon

/-- C8: an authorized (KGU or Akimat) administrative deletion with a strictly
future cutoff is rejected as invalid input with the stored rows untouched;
with a past (or present) cutoff it removes exactly the rows with `capturedAt`
strictly older than the cutoff and reports their number; on the fixture with
rows aged 1, 6, 8 and 10 days, a 7-day cutoff deletes exactly the 8- and
10-day rows. -/
theorem C8_admin_delete (pr : Principal) (now olderThan : ℤ)
    (table : List GPSPoint)
    (hauth : pr.isKgu = true ∨ pr.isAkimat = true) :
    (now < olderThan →
      deleteOldGPSPoints pr now olderThan table =
        (table, Except.error ServiceError.invalidInput))
    ∧ (olderThan ≤ now →
      (∀ p : GPSPoint, (deleteOldGPSPoints pr now olderThan table).1.count p =
        if p.capturedAt < olderThan then 0 else table.count p)
      ∧ (deleteOldGPSPoints pr now olderThan table).2 =
        Except.ok (table.filter fun p => decide (p.capturedAt < olderThan)).length)
    ∧ deleteOldGPSPoints kguPrincipal 0 (-604800) fixtureAgedDays =
      ([fixturePointAt (-86400), fixturePointAt (-518400)], Except.ok 2) := by
  have hgate : (!pr.isKgu && !pr.isAkimat) = false := by
    rcases hauth with h | h <;> simp [h]
  refine ⟨?_, ?_, rfl⟩
  · intro hfut
    rw [deleteOldGPSPoints, hgate]
    simp [hfut]
  · intro hpast
    have hnotfut : ¬(now < olderThan) := by omega
    rw [deleteOldGPSPoints, hgate]
    rw [if_neg (by simp : ¬((false : Bool) = true)), if_neg hnotfut]
    constructor
    · intro p
      simp only [deleteOlderThan]
      by_cases hp : p.capturedAt < olderThan
      · rw [if_pos hp, List.count_eq_zero]
        intro hmem
        have := List.of_mem_filter hmem
        simp [hp] at this
      · rw [if_neg hp]
        exact List.count_filter (by simp [hp])
    · simp only [deleteOlderThan]

/-- Witness for C8: the future-cutoff rejection at a concrete input. -/
theorem C8_admin_delete_witness :
    deleteOldGPSPoints kguPrincipal 0 3600 fixtureAgedDays =
      (fixtureAgedDays, Except.error ServiceError.invalidInput) :=
  (C8_admin_delete kguPrincipal 0 3600 fixtureAgedDays
    (Or.inl (by decide))).1 (by decide)

/-- C4 counterexample: a sample aged 179 seconds is classified IDLE, not
IN_TRIP as the claim states (the IN_TRIP threshold is 2 minutes = 120 s). -/
theorem C4_age_179_not_in_trip :
    ¬ liveStatusesAt (1000 - 179) = some [VehicleStatus.inTrip] := by
  decide

/-- C4 (amended): a sample aged 90 s ⇒ IN_TRIP, aged 179 s ⇒ IDLE, aged
181 s ⇒ IDLE, and aged 301 s falls outside the 5-minute fetch window, so the
vehicle reports OFFLINE with no position block. -/
theorem C4_live_status_examples :
    liveStatusesAt (1000 - 90) = some [VehicleStatus.inTrip]
    ∧ liveStatusesAt (1000 - 179) = some [VehicleStatus.idle]
    ∧ liveStatusesAt (1000 - 181) = some [VehicleStatus.idle]
    ∧ liveStatusesAt (1000 - 301) = some [VehicleStatus.offline]
    ∧ getVehiclesLive noParse [fixtureVehicle] [fixturePointAt (1000 - 301)]
        1000 kguPrincipal =
      Except.ok [⟨1, "KZ-001", none, none, VehicleStatus.offline⟩] := by
  refine ⟨by decide, by decide, by decide, by decide, rfl⟩

end Mon

end SnowOps

namespace SnowOps

namespace Mon

/-- C10: the `is_simulated` flag is true exactly when the provenance payload
is present, non-empty, parses as JSON, and carries the boolean field
`simulated = true`; and for an authorized principal the live query always
returns a result, whatever the stored payloads are. -/
theorem C10_is_simulated_flag (parse : String → Option JsonObject)
    (raw : Option String) :
    (isSimulatedFlag parse raw = true ↔
      ∃ text payload, raw = some text ∧ text ≠ "" ∧ parse text = some payload ∧
        payload.lookup "simulated" = some (JsonValue.bool true))
    ∧ (∀ (vehiclesTable : List Vehicle) (gpsTable : List GPSPoint) (now : ℤ)
        (pr : Principal), pr.isKgu = true →
        ∃ out, getVehiclesLive parse vehiclesTable gpsTable now pr =
          Except.ok out) := by
  constructor
  · constructor
    · intro h
      match hraw : raw with
      | none => simp [isSimulatedFlag] at h
      | some text =>
        simp only [isSimulatedFlag] at h
        by_cases hempty : text = ""
        · rw [if_pos hempty] at h; simp at h
        · rw [if_neg hempty] at h
          match hparse : parse text with
          | none => rw [hparse] at h; simp at h
          | some payload =>
            rw [hparse] at h
            dsimp only at h
            match hfind : payload.lookup "simulated" with
            | some (JsonValue.bool true) =>
              exact ⟨text, payload, rfl, hempty, hparse, hfind⟩
            | none => rw [hfind] at h; simp at h
            | some (JsonValue.bool false) => rw [hfind] at h; simp at h
            | some (JsonValue.str s) => rw [hfind] at h; simp at h
            | some (JsonValue.num n) => rw [hfind] at h; simp at h
            | some JsonValue.null => rw [hfind] at h; simp at h
    · rintro ⟨text, payload, hraw, hempty, hparse, hfind⟩
      subst hraw
      simp only [isSimulatedFlag]
      rw [if_neg hempty, hparse]
      dsimp only
      rw [hfind]
  · intro vehiclesTable gpsTable now pr hk
    unfold getVehiclesLive visibleVehicles
    rw [hk]
    simp only [Bool.or_true, if_true]
    by_cases hlen : ((vehicleList vehiclesTable none false).map (·.id)).length = 0
    · rw [if_pos hlen]
      exact ⟨[], rfl⟩
    · rw [if_neg hlen]
      exact ⟨_, rfl⟩

end Mon

end SnowOps

namespace SnowOps

namespace Mon

theorem latestOrder_total (p q : GPSPoint) : latestOrder p q ∨ latestOrder q p := by
  unfold latestOrder
  omega

theorem latestOrder_trans (p q r : GPSPoint) (h1 : latestOrder p q)
    (h2 : latestOrder q r) : latestOrder p r := by
  unfold latestOrder at h1 h2 ⊢
  omega

theorem insertLatest_perm (p : GPSPoint) (l : List GPSPoint) :
    (insertLatest p l).Perm (p :: l) := by
  induction l with
  | nil => exact List.Perm.refl _
  | cons q rest ih =>
    unfold insertLatest
    by_cases h : latestOrder p q
    · simp [h]
    · simp only [h, if_false]
      exact (ih.cons q).trans (List.Perm.swap p q rest)

theorem sortLatest_perm (l : List GPSPoint) : (sortLatest l).Perm l := by
  induction l with
  | nil => exact List.Perm.refl _
  | cons p rest ih =>
    exact (insertLatest_perm p (sortLatest rest)).trans (ih.cons p)

theorem insertLatest_pairwise (p : GPSPoint) (l : List GPSPoint)
    (h : List.Pairwise latestOrder l) :
    List.Pairwise latestOrder (insertLatest p l) := by
  induction l with
  | nil => simp [insertLatest]
  | cons q rest ih =>
    rw [List.pairwise_cons] at h
    unfold insertLatest
    by_cases hpq : latestOrder p q
    · simp only [hpq, if_true]
      refine List.Pairwise.cons ?_ (List.Pairwise.cons h.1 h.2)
      intro x hx
      rcases List.mem_cons.mp hx with hEq | hx
      · rw [hEq]; exact hpq
      · exact latestOrder_trans p q x hpq (h.1 x hx)
    · simp only [hpq, if_false]
      refine List.Pairwise.cons ?_ (ih h.2)
      intro x hx
      rcases List.mem_cons.mp ((insertLatest_perm p rest).mem_iff.mp hx) with hEq | hx2
      · rw [hEq]
        rcases latestOrder_total p q with hc | hc
        · exact absurd hc hpq
        · exact hc
      · exact h.1 x hx2

theorem sortLatest_pairwise (l : List GPSPoint) :
    List.Pairwise latestOrder (sortLatest l) := by
  induction l with
  | nil => simp [sortLatest]
  | cons p rest ih => exact insertLatest_pairwise p (sortLatest rest) ih

theorem find?_latest_max (rows : List GPSPoint) (vid : Nat) (p : GPSPoint)
    (hpw : List.Pairwise latestOrder rows)
    (hfind : rows.find? (fun r => r.vehicleId == vid) = some p) :
    ∀ q ∈ rows, q.vehicleId = vid → q.capturedAt ≤ p.capturedAt := by
  induction rows with
  | nil => simp at hfind
  | cons a rest ih =>
    rw [List.pairwise_cons] at hpw
    intro q hq hqvid
    by_cases ha : a.vehicleId == vid
    · rw [List.find?_cons_of_pos rest ha] at hfind
      have hap : a = p := by injection hfind
      subst hap
      rcases List.mem_cons.mp hq with hEq | hq
      · rw [hEq]
      · have hlex := hpw.1 q hq
        have havid : a.vehicleId = vid := by simpa using ha
        unfold latestOrder at hlex
        omega
    · rw [List.find?_cons_of_neg rest ha] at hfind
      rcases List.mem_cons.mp hq with hEq | hq
      · exfalso
        apply ha
        rw [hEq] at hqvid
        simp [hqvid]
      · exact ih hpw.2 hfind q hq hqvid

theorem getLatest_some_spec (table : List GPSPoint) (ids : List Nat)
    (now maxAge : ℤ) (vid : Nat) (p : GPSPoint)
    (h : getLatestForVehicles table ids now maxAge vid = some p) :
    p ∈ table ∧ p.vehicleId = vid ∧ now - maxAge ≤ p.capturedAt ∧
      ∀ q ∈ table, q.vehicleId = vid → ids.contains q.vehicleId = true →
        now - maxAge ≤ q.capturedAt → q.capturedAt ≤ p.capturedAt := by
  unfold getLatestForVehicles at h
  dsimp only at h
  have hmem := List.mem_of_find?_eq_some h
  have hmemf := (sortLatest_perm _).mem_iff.mp hmem
  have hcond := List.of_mem_filter hmemf
  simp only [Bool.and_eq_true, decide_eq_true_eq] at hcond
  have hvid : p.vehicleId = vid := by
    have := List.find?_some h
    simpa using this
  refine ⟨(List.mem_filter.mp hmemf).1, hvid, hcond.2, ?_⟩
  intro q hq hqvid hqids hqfresh
  have hqrows : q ∈ sortLatest (table.filter fun r =>
      ids.contains r.vehicleId && decide (now - maxAge ≤ r.capturedAt)) := by
    apply (sortLatest_perm _).mem_iff.mpr
    exact List.mem_filter.mpr ⟨hq,
      by simp only [Bool.and_eq_true, decide_eq_true_eq]; exact ⟨hqids, hqfresh⟩⟩
  exact find?_latest_max _ vid p (sortLatest_pairwise _) h q hqrows hqvid

theorem getLatest_none_spec (table : List GPSPoint) (ids : List Nat)
    (now maxAge : ℤ) (vid : Nat)
    (h : getLatestForVehicles table ids now maxAge vid = none) :
    ∀ q ∈ table, q.vehicleId = vid → ids.contains q.vehicleId = true →
      ¬(now - maxAge ≤ q.capturedAt) := by
  unfold getLatestForVehicles at h
  dsimp only at h
  intro q hq hqvid hqids hqfresh
  have hqrows : q ∈ sortLatest (table.filter fun r =>
      ids.contains r.vehicleId && decide (now - maxAge ≤ r.capturedAt)) := by
    apply (sortLatest_perm _).mem_iff.mpr
    exact List.mem_filter.mpr ⟨hq,
      by simp only [Bool.and_eq_true, decide_eq_true_eq]; exact ⟨hqids, hqfresh⟩⟩
  have := List.find?_eq_none.mp h q hqrows
  simp [hqvid] at this

theorem getLatest_none_of_stale (table : List GPSPoint) (ids : List Nat)
    (now maxAge : ℤ) (vid : Nat)
    (h : ∀ q ∈ table, q.vehicleId = vid → ¬(now - maxAge ≤ q.capturedAt)) :
    getLatestForVehicles table ids now maxAge vid = none := by
  unfold getLatestForVehicles
  dsimp only
  rw [List.find?_eq_none]
  intro r hr
  have hrf := (sortLatest_perm _).mem_iff.mp hr
  have hcond := List.of_mem_filter hrf
  simp only [Bool.and_eq_true, decide_eq_true_eq] at hcond
  intro hbeq
  have hrvid : r.vehicleId = vid := by simpa using hbeq
  exact h r (List.mem_filter.mp hrf).1 hrvid hcond.2

end Mon

end SnowOps

namespace SnowOps

namespace Mon

/-- C3: for every visible vehicle, the live resolver fetches the most recent
sample with `capturedAt ≥ now − 5min` (absence of such a sample is exactly an
all-stale store for that vehicle, and yields OFFLINE with no position block);
when a sample is fetched, age < 2 min ⇒ IN_TRIP, 2 min ≤ age < 5 min ⇒ IDLE,
age ≥ 5 min ⇒ OFFLINE. -/
theorem C3_live_status_resolver (parse : String → Option JsonObject)
    (vehiclesTable : List Vehicle) (gpsTable : List GPSPoint) (now : ℤ)
    (pr : Principal) (vs : List Vehicle) (out : List VehicleLiveData)
    (v : Vehicle)
    (hvis : visibleVehicles pr vehiclesTable = Except.ok vs)
    (hok : getVehiclesLive parse vehiclesTable gpsTable now pr = Except.ok out)
    (hv : v ∈ vs) :
    LiveEntrySpec gpsTable (vs.map (fun x => x.id)) now v out := by
  unfold getVehiclesLive at hok
  rw [hvis] at hok
  dsimp only at hok
  by_cases hlen : (vs.map fun x => x.id).length = 0
  · rw [List.length_map, List.length_eq_zero] at hlen
    subst hlen
    simp at hv
  · rw [if_neg hlen] at hok
    have hout := Except.ok.inj hok
    subst hout
    cases hL : getLatestForVehicles gpsTable (vs.map fun x => x.id) now
        (5 * 60) v.id with
    | none =>
      refine ⟨⟨v.id, v.plateNumber, v.contractorId, none, VehicleStatus.offline⟩,
        ?_, rfl, ?_, ?_, ?_⟩
      · have := List.mem_map_of_mem (fun v : Vehicle =>
          match getLatestForVehicles gpsTable (vs.map fun x => x.id) now
              (5 * 60) v.id with
          | none =>
            (⟨v.id, v.plateNumber, v.contractorId, none,
              VehicleStatus.offline⟩ : VehicleLiveData)
          | some p =>
            ⟨v.id, v.plateNumber, v.contractorId,
              some ⟨p.lat, p.lon, p.capturedAt, p.speedKmh, p.headingDeg,
                isSimulatedFlag parse p.rawPayload⟩,
              classifyAge (now - p.capturedAt)⟩) hv
        dsimp only at this
        rw [hL] at this
        exact this
      · intro _
        refine ⟨rfl, rfl, ?_⟩
        intro q hq hqvid
        have hqids : (vs.map fun x => x.id).contains q.vehicleId = true := by
          rw [hqvid]
          exact List.elem_eq_true_of_mem (List.mem_map_of_mem _ hv)
        have := getLatest_none_spec gpsTable (vs.map fun x => x.id) now
          (5 * 60) v.id hL q hq hqvid hqids
        omega
      · intro _
        exact hL
      · intro p hp
        rw [hL] at hp
        exact absurd hp (by simp)
    | some p0 =>
      refine ⟨⟨v.id, v.plateNumber, v.contractorId,
        some ⟨p0.lat, p0.lon, p0.capturedAt, p0.speedKmh, p0.headingDeg,
          isSimulatedFlag parse p0.rawPayload⟩,
        classifyAge (now - p0.capturedAt)⟩, ?_, rfl, ?_, ?_, ?_⟩
      · have := List.mem_map_of_mem (fun v : Vehicle =>
          match getLatestForVehicles gpsTable (vs.map fun x => x.id) now
              (5 * 60) v.id with
          | none =>
            (⟨v.id, v.plateNumber, v.contractorId, none,
              VehicleStatus.offline⟩ : VehicleLiveData)
          | some p =>
            ⟨v.id, v.plateNumber, v.contractorId,
              some ⟨p.lat, p.lon, p.capturedAt, p.speedKmh, p.headingDeg,
                isSimulatedFlag parse p.rawPayload⟩,
              classifyAge (now - p.capturedAt)⟩) hv
        dsimp only at this
        rw [hL] at this
        exact this
      · intro hnone
        rw [hnone] at hL
        exact absurd hL (by simp)
      · intro hstale
        have hspec := getLatest_some_spec gpsTable (vs.map fun x => x.id) now
          (5 * 60) v.id p0 hL
        have := hstale p0 hspec.1 hspec.2.1
        omega
      · intro p hp
        rw [hL] at hp
        cases Option.some.inj hp
        have hspec := getLatest_some_spec gpsTable (vs.map fun x => x.id) now
          (5 * 60) v.id p0 hL
        refine ⟨⟨hspec.1, hspec.2.1, hspec.2.2.1, ?_⟩, rfl, ?_, ?_, ?_⟩
        · intro q hq hqvid hqfresh
          have hqids : (vs.map fun x => x.id).contains q.vehicleId = true := by
            rw [hqvid]
            exact List.elem_eq_true_of_mem (List.mem_map_of_mem _ hv)
          exact hspec.2.2.2 q hq hqvid hqids hqfresh
        · intro hage
          simp only [classifyAge]
          rw [if_pos hage]
        · intro hage1 hage2
          simp only [classifyAge]
          rw [if_neg (by omega), if_pos hage2]
        · intro hage
          simp only [classifyAge]
          rw [if_neg (by omega), if_neg (by omega)]

/-- Witness for C3 at the single-vehicle fixture with a 90-second-old sample. -/
theorem C3_live_status_resolver_witness :
    LiveEntrySpec [fixturePointAt 910]
      ([fixtureVehicle].map (fun x => x.id)) 1000 fixtureVehicle
      [⟨1, "KZ-001", none, some ⟨0, 0, 910, 0, 0, false⟩,
        VehicleStatus.inTrip⟩] :=
  C3_live_status_resolver noParse [fixtureVehicle] [fixturePointAt 910] 1000
    kguPrincipal [fixtureVehicle]
    [⟨1, "KZ-001", none, some ⟨0, 0, 910, 0, 0, false⟩, VehicleStatus.inTrip⟩]
    fixtureVehicle rfl rfl (by simp)

end Mon

end SnowOps

namespace SnowOps

namespace Sim

theorem clamp_eq_min (x : ℚ) : (if 1 < x then 1 else x) = min 1 x := by
  by_cases h : 1 < x
  · rw [if_pos h, min_eq_left h.le]
  · rw [if_neg h, min_eq_right (le_of_not_lt h)]

theorem getCurrentSegment_eq (s : SimState) (road : Road) (a b : LatLon)
    (hroad : s.currentRoad = some road)
    (ha : road.Nodes[s.currentIndex]? = some a)
    (hb : road.Nodes[s.currentIndex + 1]? = some b) :
    getCurrentSegment s = some ⟨a, b⟩ := by
  obtain ⟨hltb, hgb⟩ := List.getElem?_eq_some.mp hb
  obtain ⟨hlta, hga⟩ := List.getElem?_eq_some.mp ha
  unfold getCurrentSegment
  rw [hroad]
  dsimp only
  rw [dif_neg (by omega)]
  simp [List.get_eq_getElem, hga, hgb]

theorem core_run_spec (dist bearing : LatLon → LatLon → ℚ) (d : ℚ) (vid : Nat)
    (env : TickEnv) (s : SimState) (road : Road)
    (hroads : s.roads = [road]) (hroad : s.currentRoad = some road)
    (hidx : s.currentIndex < road.Nodes.length - 1) :
    ∃ s3 pt, updatePositionCore dist bearing d vid env s = (s3, some pt) ∧
      s3.roads = [road] ∧ s3.currentRoad = some road ∧
      s3.currentIndex < road.Nodes.length - 1 ∧
      s3.wasInPolygon = (evalGeofence env.listActivePolygons env.containsPoint
        env.listCamerasByPolygon env.now s.wasInPolygon pt.lat pt.lon).1 ∧
      pt.payload = ⟨true, "osm-simulator",
        (evalGeofence env.listActivePolygons env.containsPoint
          env.listCamerasByPolygon env.now s.wasInPolygon pt.lat pt.lon).2.2⟩ ∧
      ∃ a b, road.Nodes[s.currentIndex]? = some a ∧
        road.Nodes[s.currentIndex + 1]? = some b ∧
        (s3.currentPos = min 1 (d / dist a b) ∨
          (s3.currentPos = s.currentPos + min 1 (d / dist a b) ∧
            d ≤ (1 - s.currentPos) * dist a b)) := by
  have hlt1 : s.currentIndex + 1 < road.Nodes.length := by omega
  have hlt0 : s.currentIndex < road.Nodes.length := by omega
  have ha : road.Nodes[s.currentIndex]? =
      some (road.Nodes.get ⟨s.currentIndex, hlt0⟩) := by
    rw [List.get_eq_getElem]
    exact List.getElem?_eq_getElem hlt0
  have hb : road.Nodes[s.currentIndex + 1]? =
      some (road.Nodes.get ⟨s.currentIndex + 1, hlt1⟩) := by
    rw [List.get_eq_getElem]
    exact List.getElem?_eq_getElem hlt1
  have hseg : getCurrentSegment s = some ⟨road.Nodes.get ⟨s.currentIndex, hlt0⟩,
      road.Nodes.get ⟨s.currentIndex + 1, hlt1⟩⟩ :=
    getCurrentSegment_eq s road _ _ hroad ha hb
  unfold updatePositionCore
  rw [hroad]
  dsimp only
  rw [if_neg (by omega : ¬(road.Nodes.length < 2))]
  rw [hseg]
  dsimp only
  by_cases hadv : (1 - s.currentPos) *
      dist (road.Nodes.get ⟨s.currentIndex, hlt0⟩)
        (road.Nodes.get ⟨s.currentIndex + 1, hlt1⟩) < d
  · rw [if_pos hadv]
    unfold advanceResolve roadNodesLen
    dsimp only
    rw [hroad]
    by_cases hend : road.Nodes.length - 1 ≤ s.currentIndex + 1
    · rw [if_pos hend]
      unfold selectRandomRoad
      dsimp only
      rw [hroads]
      dsimp only
      have h0 : (0 : Nat) < road.Nodes.length := by omega
      have h1 : (1 : Nat) < road.Nodes.length := by omega
      have hseg2 : getCurrentSegment
          ⟨[road], some road, 0, 0, s.wasInPolygon, s.currentPolygonID⟩ =
          some ⟨road.Nodes.get ⟨0, h0⟩, road.Nodes.get ⟨1, h1⟩⟩ := by
        apply getCurrentSegment_eq _ road _ _ rfl <;>
          simp [List.get_eq_getElem, List.getElem?_eq_getElem]
      rw [hseg2]
      dsimp only
      refine ⟨_, _, rfl, rfl, rfl, by dsimp; omega, rfl, rfl, ?_⟩
      refine ⟨_, _, ha, hb, Or.inl ?_⟩
      dsimp only
      rw [clamp_eq_min, zero_add]
    · rw [if_neg hend]
      have hlt2 : s.currentIndex + 1 + 1 < road.Nodes.length := by omega
      have hseg2 : getCurrentSegment
          ⟨s.roads, some road, s.currentIndex + 1, 0, s.wasInPolygon,
            s.currentPolygonID⟩ =
          some ⟨road.Nodes.get ⟨s.currentIndex + 1, hlt1⟩,
            road.Nodes.get ⟨s.currentIndex + 1 + 1, hlt2⟩⟩ := by
        apply getCurrentSegment_eq _ road _ _ rfl <;>
          simp [List.get_eq_getElem, List.getElem?_eq_getElem]
      rw [hseg2]
      dsimp only
      refine ⟨_, _, rfl, hroads, rfl, by dsimp; omega, rfl, rfl, ?_⟩
      refine ⟨_, _, ha, hb, Or.inl ?_⟩
      dsimp only
      rw [clamp_eq_min, zero_add]
  · rw [if_neg hadv]
    dsimp only
    refine ⟨_, _, rfl, hroads, hroad, by dsimp; omega, rfl, rfl, ?_⟩
    refine ⟨_, _, ha, hb, Or.inr ⟨?_, le_of_not_lt hadv⟩⟩
    dsimp only
    rw [clamp_eq_min]

end Sim

end SnowOps

namespace SnowOps

namespace Sim

theorem evalGeofence_spec (listActive : Option (List Polygon))
    (contains : Nat → ℚ → ℚ → Option Bool)
    (listCameras : Nat → Option (List Camera)) (now : ℤ) (was : Bool)
    (lat lon : ℚ) (ps : List Polygon) (hps : listActive = some ps) :
    (evalGeofence listActive contains listCameras now was lat lon).1 =
      (findFirstContaining contains lat lon ps).isSome
    ∧ (evalGeofence listActive contains listCameras now was lat lon).2.2.isSome =
      (!was && (findFirstContaining contains lat lon ps).isSome) := by
  subst hps
  unfold evalGeofence
  cases hf : findFirstContaining contains lat lon ps with
  | none => cases was <;> simp [hf]
  | some polygon => cases was <;> simp [hf]

theorem updatePosition_state_eq (dist bearing : LatLon → LatLon → ℚ) (d : ℚ)
    (vid : Nat) (env : TickEnv) (s s3 : SimState) (pt : SimPoint)
    (hcore : updatePositionCore dist bearing d vid env s = (s3, some pt)) :
    (updatePosition dist bearing d vid env s).state = s3 := by
  unfold updatePosition
  rw [hcore]
  dsimp only
  split <;> rfl

/-- C1: on a tick with a successful polygon listing and insert, the persisted
sample carries a geofence ENTRY event iff the vehicle was outside at the start
of the tick and its new position lies in some active polygon (first match);
the membership flag is rewritten to the new containment unconditionally; and
on the containment sequence outside, outside, inside, inside, outside, inside
the events fire on ticks 3 and 6 only. -/
theorem C1_geofence_entry_edge (dist bearing : LatLon → LatLon → ℚ) (d : ℚ)
    (vid : Nat) (env : TickEnv) (s : SimState) (road : Road)
    (ps : List Polygon)
    (hroads : s.roads = [road]) (hroad : s.currentRoad = some road)
    (hidx : s.currentIndex < road.Nodes.length - 1)
    (hps : env.listActivePolygons = some ps)
    (hcreate : env.createOk = true) :
    ∃ pt, (updatePosition dist bearing d vid env s).persisted = some pt ∧
      pt.payload.lprEvent.isSome =
        (!s.wasInPolygon &&
          (findFirstContaining env.containsPoint pt.lat pt.lon ps).isSome) ∧
      (updatePosition dist bearing d vid env s).state.wasInPolygon =
        (findFirstContaining env.containsPoint pt.lat pt.lon ps).isSome ∧
      tickEventFlags (simTicks constDist zeroBearing 1 0 simState0 sixTickEnvs) =
        [false, false, true, false, false, true] := by
  obtain ⟨s3, pt, hcore, _, _, _, hD, hE, _⟩ :=
    core_run_spec dist bearing d vid env s road hroads hroad hidx
  have hspec := evalGeofence_spec env.listActivePolygons env.containsPoint
    env.listCamerasByPolygon env.now s.wasInPolygon pt.lat pt.lon ps hps
  have hpers : (updatePosition dist bearing d vid env s).persisted = some pt := by
    unfold updatePosition
    rw [hcore]
    dsimp only
    rw [hcreate]
    rfl
  refine ⟨pt, hpers, ?_, ?_, ?_⟩
  · rw [hE]
    exact hspec.2
  · rw [updatePosition_state_eq dist bearing d vid env s s3 pt hcore, hD]
    exact hspec.1
  · norm_num [tickEventFlags, simTicks, sixTickEnvs, updatePosition,
      updatePositionCore, getCurrentSegment, advanceResolve, selectRandomRoad,
      roadNodesLen, evalGeofence, findFirstContaining, firstActiveLprCamera,
      constDist, zeroBearing, insideEnv, simState0, road3, nodeA, nodeB, nodeC]

/-- Witness for C1 at the fixture: first tick from outside with containment
answering inside. -/
theorem C1_geofence_entry_edge_witness :
    ∃ pt, (updatePosition constDist zeroBearing 1 0 (insideEnv true)
        simState0).persisted = some pt ∧
      pt.payload.lprEvent.isSome =
        (!simState0.wasInPolygon &&
          (findFirstContaining (insideEnv true).containsPoint pt.lat pt.lon
            [⟨1, "P"⟩]).isSome) ∧
      (updatePosition constDist zeroBearing 1 0 (insideEnv true)
          simState0).state.wasInPolygon =
        (findFirstContaining (insideEnv true).containsPoint pt.lat pt.lon
          [⟨1, "P"⟩]).isSome ∧
      tickEventFlags (simTicks constDist zeroBearing 1 0 simState0 sixTickEnvs) =
        [false, false, true, false, false, true] :=
  C1_geofence_entry_edge constDist zeroBearing 1 0 (insideEnv true) simState0
    road3 [⟨1, "P"⟩] rfl rfl (by decide) rfl rfl

end Sim

end SnowOps

namespace SnowOps

namespace Sim

/-- C2 counterexample: on a tick whose active-polygon listing fails (with a
working database), a telemetry sample IS persisted and the cursor IS advanced,
refuting "the tick is dropped and the cursor state is unchanged". -/
theorem C2_counterexample :
    polyFailEnv.listActivePolygons = none
    ∧ (updatePosition constDist zeroBearing 1 0 polyFailEnv
        simState0).persisted.isSome = true
    ∧ ¬((updatePosition constDist zeroBearing 1 0 polyFailEnv
        simState0).state.currentPos = simState0.currentPos) := by
  refine ⟨rfl, ?_, ?_⟩ <;>
    norm_num [updatePosition, updatePositionCore, getCurrentSegment,
      advanceResolve, selectRandomRoad, roadNodesLen, evalGeofence,
      findFirstContaining, firstActiveLprCamera, constDist, zeroBearing,
      polyFailEnv, simState0, road3, nodeA, nodeB, nodeC]

/-- C2 (amended): a failed polygon/camera lookup does not drop the tick — with
a working database the tick still persists its sample (on a failed polygon
listing the sample carries no event and the membership flag is cleared);
a failed persistence call alone yields an errored tick with no persisted
sample, but the cursor state is exactly the state of the corresponding
successful tick, i.e. it has already been advanced. -/
theorem C2_transient_failure_ticks (dist bearing : LatLon → LatLon → ℚ)
    (d : ℚ) (vid : Nat) (listActive : Option (List Polygon))
    (cp : Nat → ℚ → ℚ → Option Bool) (lc : Nat → Option (List Camera))
    (now : ℤ) (s : SimState) (road : Road)
    (hroads : s.roads = [road]) (hroad : s.currentRoad = some road)
    (hidx : s.currentIndex < road.Nodes.length - 1) :
    ((updatePosition dist bearing d vid ⟨listActive, cp, lc, true, now⟩ s).ok =
        true
      ∧ ∃ pt, (updatePosition dist bearing d vid
          ⟨listActive, cp, lc, true, now⟩ s).persisted = some pt
        ∧ (listActive = none → pt.payload.lprEvent = none
            ∧ (updatePosition dist bearing d vid
                ⟨listActive, cp, lc, true, now⟩ s).state.wasInPolygon = false))
    ∧ (updatePosition dist bearing d vid ⟨listActive, cp, lc, false, now⟩
        s).state =
      (updatePosition dist bearing d vid ⟨listActive, cp, lc, true, now⟩
        s).state
    ∧ (updatePosition dist bearing d vid ⟨listActive, cp, lc, false, now⟩
        s).persisted = none
    ∧ (updatePosition dist bearing d vid ⟨listActive, cp, lc, false, now⟩
        s).ok = false := by
  obtain ⟨s3, pt, hcore, _, _, _, hD, hE, _⟩ :=
    core_run_spec dist bearing d vid ⟨listActive, cp, lc, true, now⟩ s road
      hroads hroad hidx
  have hcoreF : updatePositionCore dist bearing d vid
      ⟨listActive, cp, lc, false, now⟩ s = (s3, some pt) := hcore
  refine ⟨⟨?_, pt, ?_, ?_⟩, ?_, ?_, ?_⟩
  · unfold updatePosition
    rw [hcore]
    rfl
  · unfold updatePosition
    rw [hcore]
    rfl
  · intro hnone
    subst hnone
    refine ⟨?_, ?_⟩
    · rw [hE]
      rfl
    · rw [updatePosition_state_eq dist bearing d vid _ s s3 pt hcore, hD]
      rfl
  · rw [updatePosition_state_eq dist bearing d vid _ s s3 pt hcoreF,
      updatePosition_state_eq dist bearing d vid _ s s3 pt hcore]
  · unfold updatePosition
    rw [hcoreF]
    rfl
  · unfold updatePosition
    rw [hcoreF]
    rfl

/-- Witness for C2's amended behavior at the fixture state. -/
theorem C2_transient_failure_ticks_witness :
    ((updatePosition constDist zeroBearing 1 0
        ⟨none, polyFailEnv.containsPoint, polyFailEnv.listCamerasByPolygon,
          true, 0⟩ simState0).ok = true
      ∧ ∃ pt, (updatePosition constDist zeroBearing 1 0
          ⟨none, polyFailEnv.containsPoint, polyFailEnv.listCamerasByPolygon,
            true, 0⟩ simState0).persisted = some pt
        ∧ ((none : Option (List Polygon)) = none →
            pt.payload.lprEvent = none
            ∧ (updatePosition constDist zeroBearing 1 0
                ⟨none, polyFailEnv.containsPoint,
                  polyFailEnv.listCamerasByPolygon, true, 0⟩
                simState0).state.wasInPolygon = false))
    ∧ (updatePosition constDist zeroBearing 1 0
        ⟨none, polyFailEnv.containsPoint, polyFailEnv.listCamerasByPolygon,
          false, 0⟩ simState0).state =
      (updatePosition constDist zeroBearing 1 0
        ⟨none, polyFailEnv.containsPoint, polyFailEnv.listCamerasByPolygon,
          true, 0⟩ simState0).state
    ∧ (updatePosition constDist zeroBearing 1 0
        ⟨none, polyFailEnv.containsPoint, polyFailEnv.listCamerasByPolygon,
          false, 0⟩ simState0).persisted = none
    ∧ (updatePosition constDist zeroBearing 1 0
        ⟨none, polyFailEnv.containsPoint, polyFailEnv.listCamerasByPolygon,
          false, 0⟩ simState0).ok = false :=
  C2_transient_failure_ticks constDist zeroBearing 1 0 none
    polyFailEnv.containsPoint polyFailEnv.listCamerasByPolygon 0 simState0
    road3 rfl rfl (by decide)

end Sim

end SnowOps

namespace SnowOps

namespace Sim

theorem tick_invariant (dist bearing : LatLon → LatLon → ℚ) (d : ℚ)
    (vid : Nat) (env : TickEnv) (s : SimState) (road : Road)
    (hd : 0 ≤ d) (hdist : ∀ x y : LatLon, 0 ≤ dist x y)
    (hroads : s.roads = [road]) (hroad : s.currentRoad = some road)
    (hidx : s.currentIndex < road.Nodes.length - 1)
    (hpos0 : 0 ≤ s.currentPos) (hpos1 : s.currentPos ≤ 1) :
    (updatePosition dist bearing d vid env s).state.roads = [road]
    ∧ (updatePosition dist bearing d vid env s).state.currentRoad = some road
    ∧ (updatePosition dist bearing d vid env s).state.currentIndex <
        road.Nodes.length - 1
    ∧ 0 ≤ (updatePosition dist bearing d vid env s).state.currentPos
    ∧ (updatePosition dist bearing d vid env s).state.currentPos ≤ 1 := by
  obtain ⟨s3, pt, hcore, hA, hB, hC, _, _, a, b, _, _, hF⟩ :=
    core_run_spec dist bearing d vid env s road hroads hroad hidx
  rw [updatePosition_state_eq dist bearing d vid env s s3 pt hcore]
  refine ⟨hA, hB, hC, ?_, ?_⟩
  · have hdivnn : 0 ≤ d / dist a b := div_nonneg hd (hdist a b)
    rcases hF with hF | ⟨hF, _⟩
    · rw [hF]
      exact le_min (by norm_num) hdivnn
    · rw [hF]
      exact add_nonneg hpos0 (le_min (by norm_num) hdivnn)
  · rcases hF with hF | ⟨hF, hcond⟩
    · rw [hF]
      exact min_le_left 1 _
    · rw [hF]
      by_cases hL0 : dist a b = 0
      · have hdle0 : d ≤ 0 := by
          rw [hL0] at hcond
          simpa using hcond
        have hd0 : d = 0 := le_antisymm hdle0 hd
        rw [hd0, hL0, zero_div]
        rw [min_eq_right (by norm_num : (0 : ℚ) ≤ 1), add_zero]
        exact hpos1
      · have hLpos : 0 < dist a b := lt_of_le_of_ne (hdist a b) (Ne.symm hL0)
        have hdle : d / dist a b ≤ 1 - s.currentPos :=
          (div_le_iff₀ hLpos).mpr hcond
        have := min_le_right (1 : ℚ) (d / dist a b)
        linarith

/-- C6: for every number of ticks on a single fixed path with at least two
waypoints (and nonnegative per-tick distance and segment lengths), the cursor
keeps its fractional progress in [0, 1] and its segment index strictly below
the last waypoint index; and the end-of-path policy resets the cursor to
(index 0, progress 0) on the same path. -/
theorem C6_cursor_invariant (dist bearing : LatLon → LatLon → ℚ) (d : ℚ)
    (vid : Nat) (envs : Nat → TickEnv) (s : SimState) (road : Road)
    (hd : 0 ≤ d) (hdist : ∀ x y : LatLon, 0 ≤ dist x y)
    (hroads : s.roads = [road]) (hroad : s.currentRoad = some road)
    (hidx : s.currentIndex < road.Nodes.length - 1)
    (hpos0 : 0 ≤ s.currentPos) (hpos1 : s.currentPos ≤ 1) :
    (∀ N, (simRun dist bearing d vid envs s N).roads = [road]
      ∧ (simRun dist bearing d vid envs s N).currentRoad = some road
      ∧ (simRun dist bearing d vid envs s N).currentIndex <
          road.Nodes.length - 1
      ∧ 0 ≤ (simRun dist bearing d vid envs s N).currentPos
      ∧ (simRun dist bearing d vid envs s N).currentPos ≤ 1)
    ∧ (∀ t : SimState, t.roads = [road] →
        selectRandomRoad t =
          { t with currentRoad := some road, currentIndex := 0, currentPos := 0 }) := by
  constructor
  · intro N
    induction N with
    | zero => exact ⟨hroads, hroad, hidx, hpos0, hpos1⟩
    | succ n ih =>
      exact tick_invariant dist bearing d vid (envs n)
        (simRun dist bearing d vid envs s n) road hd hdist ih.1 ih.2.1
        ih.2.2.1 ih.2.2.2.1 ih.2.2.2.2
  · intro t ht
    unfold selectRandomRoad
    rw [ht]

/-- Witness for C6 on the three-node fixture road. -/
theorem C6_cursor_invariant_witness :
    (∀ N, (simRun constDist zeroBearing 1 0 (fun _ => insideEnv false)
        simState0 N).roads = [road3]
      ∧ (simRun constDist zeroBearing 1 0 (fun _ => insideEnv false)
          simState0 N).currentRoad = some road3
      ∧ (simRun constDist zeroBearing 1 0 (fun _ => insideEnv false)
          simState0 N).currentIndex < road3.Nodes.length - 1
      ∧ 0 ≤ (simRun constDist zeroBearing 1 0 (fun _ => insideEnv false)
          simState0 N).currentPos
      ∧ (simRun constDist zeroBearing 1 0 (fun _ => insideEnv false)
          simState0 N).currentPos ≤ 1)
    ∧ (∀ t : SimState, t.roads = [road3] →
        selectRandomRoad t =
          { t with currentRoad := some road3, currentIndex := 0, currentPos := 0 }) :=
  C6_cursor_invariant constDist zeroBearing 1 0 (fun _ => insideEnv false)
    simState0 road3 (by norm_num) (fun x y => by norm_num [constDist]) rfl rfl
    (by decide) (by norm_num [simState0]) (by norm_num [simState0])

end Sim

end SnowOps

namespace SnowOps

namespace Sim

/-- C5 counterexample: at a cursor halfway through a 10 m segment with an 8 m
tick, the tick advances to the next (100 m) segment but the progress increment
is 8/10 (the previous segment's length), not min(1, 8/100) as the claim
requires. -/
theorem C5_counterexample :
    (updatePosition stepDist zeroBearing 8 0 (insideEnv false)
        simStateHalf).state.currentIndex = 1
    ∧ stepDist nodeA nodeB = 10 ∧ stepDist nodeB nodeC = 100
    ∧ (updatePosition stepDist zeroBearing 8 0 (insideEnv false)
        simStateHalf).state.currentPos = 4 / 5
    ∧ ¬((updatePosition stepDist zeroBearing 8 0 (insideEnv false)
        simStateHalf).state.currentPos =
      min 1 (8 / stepDist nodeB nodeC)) := by
  refine ⟨?_, ?_, ?_, ?_, ?_⟩ <;>
    norm_num [updatePosition, updatePositionCore, getCurrentSegment,
      advanceResolve, selectRandomRoad, roadNodesLen, evalGeofence,
      findFirstContaining, firstActiveLprCamera, stepDist, zeroBearing,
      insideEnv, simStateHalf, road3, nodeA, nodeB, nodeC, min_def]

/-- C5 (amended): when the tick advances to the next segment, the progress
increment still divides `distancePerTick` by the length of the segment
resolved at the start of the tick (the previous segment), while the new
position is interpolated on the newly resolved segment with that progress. -/
theorem C5_stale_segment_length (dist bearing : LatLon → LatLon → ℚ) (d : ℚ)
    (vid : Nat) (env : TickEnv) (s : SimState) (road : Road) (a b c : LatLon)
    (hroad : s.currentRoad = some road)
    (ha : road.Nodes[s.currentIndex]? = some a)
    (hb : road.Nodes[s.currentIndex + 1]? = some b)
    (hc : road.Nodes[s.currentIndex + 2]? = some c)
    (hadv : (1 - s.currentPos) * dist a b < d)
    (hcreate : env.createOk = true) :
    (updatePosition dist bearing d vid env s).state.currentIndex =
        s.currentIndex + 1
    ∧ (updatePosition dist bearing d vid env s).state.currentPos =
        min 1 (d / dist a b)
    ∧ ∃ pt, (updatePosition dist bearing d vid env s).persisted = some pt
        ∧ pt.lat = b.lat + (c.lat - b.lat) * min 1 (d / dist a b)
        ∧ pt.lon = b.lon + (c.lon - b.lon) * min 1 (d / dist a b) := by
  obtain ⟨hltc, hgc⟩ := List.getElem?_eq_some.mp hc
  have hseg : getCurrentSegment s = some ⟨a, b⟩ :=
    getCurrentSegment_eq s road a b hroad ha hb
  have hseg2 : getCurrentSegment
      ⟨s.roads, some road, s.currentIndex + 1, 0, s.wasInPolygon,
        s.currentPolygonID⟩ = some ⟨b, c⟩ := by
    apply getCurrentSegment_eq _ road b c rfl
    · exact hb
    · exact hc
  unfold updatePosition updatePositionCore
  rw [hroad]
  dsimp only
  rw [if_neg (by omega : ¬(road.Nodes.length < 2))]
  rw [hseg]
  dsimp only
  rw [if_pos hadv]
  unfold advanceResolve roadNodesLen
  dsimp only
  rw [hroad]
  rw [if_neg (by omega : ¬(road.Nodes.length - 1 ≤ s.currentIndex + 1))]
  rw [hseg2]
  dsimp only
  rw [hcreate]
  refine ⟨rfl, ?_, ?_⟩
  · dsimp only
    rw [clamp_eq_min, zero_add]
    rfl
  · refine ⟨_, rfl, ?_, ?_⟩ <;> dsimp only <;> rw [clamp_eq_min, zero_add]

/-- Witness for C5's amended behavior at the concrete fixture. -/
theorem C5_stale_segment_length_witness :
    (updatePosition stepDist zeroBearing 8 0 (insideEnv false)
        simStateHalf).state.currentIndex = simStateHalf.currentIndex + 1
    ∧ (updatePosition stepDist zeroBearing 8 0 (insideEnv false)
        simStateHalf).state.currentPos = min 1 (8 / stepDist nodeA nodeB)
    ∧ ∃ pt, (updatePosition stepDist zeroBearing 8 0 (insideEnv false)
          simStateHalf).persisted = some pt
        ∧ pt.lat = nodeB.lat +
            (nodeC.lat - nodeB.lat) * min 1 (8 / stepDist nodeA nodeB)
        ∧ pt.lon = nodeB.lon +
            (nodeC.lon - nodeB.lon) * min 1 (8 / stepDist nodeA nodeB) :=
  C5_stale_segment_length stepDist zeroBearing 8 0 (insideEnv false)
    simStateHalf road3 nodeA nodeB nodeC rfl rfl rfl rfl
    (by norm_num [stepDist, nodeA, simStateHalf]) rfl

end Sim

end SnowOps
